import Mathlib

/-!
Verification development for the lp-api-client repository.

The definitions below are a shallow embedding of the token-refresh
coordination implemented in src/config/index.ts (class ApiConfig):
the response interceptor installed by createAxiosInstance, the
single-flight wrapper refreshToken, and performTokenRefresh, together
with the service lookup of ApiConfig.createAxiosInstance and
ApiClient.getService (src/ApiClient.ts).

JavaScript values that flow through the refresh path are modelled by a
small Json type; JavaScript truthiness and the logical-or defaulting
idiom (x || d, where the empty string and 0 are falsy) are modelled
explicitly.  External callbacks (token manager, onUnauthorized,
onTokenRefresh, onTokenRefreshError) are modelled as total: their
invocations are recorded in an explicit effect log rather than executed.
The network is an oracle passed in as a function from the request the
code builds to either an error (a rejected axios promise: network
failure or non-2xx status) or a response body (response.data).
-/

namespace LpApiClient

/-- JSON-like JavaScript values (the shapes that flow through the refresh
path: request bodies, response bodies, extracted tokens). -/
inductive Json where
  | null : Json
  | bool (b : Bool) : Json
  | num (n : Int) : Json
  | str (s : String) : Json
  | arr (xs : List Json) : Json
  | obj (fields : List (String × Json)) : Json

/-- JavaScript truthiness of a defined value (undefined is handled as
Option.none by the callers). -/
def Json.truthy : Json → Bool
  | .null => false
  | .bool b => b
  | .num n => n != 0
  | .str s => s != ""
  | .arr _ => true
  | .obj _ => true

/-- Property access v?.[seg] on a JSON value: only object field lookup
yields a value; anything else gives undefined. -/
def Json.getField : Json → String → Option Json
  | .obj fields, k => List.lookup k fields
  | _, _ => none

/-- The loop `for (const seg of path) newAccessToken = newAccessToken?.[seg]`
from performTokenRefresh, starting at the response body. -/
def extractAtPath (body : Json) (path : List String) : Option Json :=
  path.foldl (fun acc seg => acc.bind (fun j => Json.getField j seg)) (some body)

/-- JavaScript `o || d` for an optional string, where the empty string is
falsy. -/
def orDefaultStr (o : Option String) (d : String) : String :=
  match o with
  | some s => if s = "" then d else s
  | none => d

/-- Truthiness of an optional string (used for `if (!refreshToken)` and
for `service.refreshEndpoint ||`). -/
def strOptTruthy (o : Option String) : Bool :=
  match o with
  | some s => s != ""
  | none => false

/-- JavaScript `o || d` for an optional number, where 0 is falsy
(`serviceConfig.timeout || this.options.defaultTimeout || 60000`). -/
def orDefaultNat (o : Option Nat) (d : Nat) : Nat :=
  match o with
  | some n => if n = 0 then d else n
  | none => d

/-- Substring test on character lists, used for
`service.name.toLowerCase().includes("auth")`. -/
def listContainsSub (sub s : List Char) : Bool :=
  s.tails.any (fun t => sub.isPrefixOf t)

/-- `a.includes(b)` on strings. -/
def strIncludes (s sub : String) : Bool :=
  listContainsSub sub.toList s.toList

/-- `s.toLowerCase()` (service names are ASCII identifiers). -/
def strToLower (s : String) : String :=
  String.mk (s.toList.map Char.toLower)

/-- Single-separator split on character lists, preserving empty pieces,
as String.prototype.split does for a one-character separator. -/
def splitOnCharAux (sep : Char) : List Char → List Char → List (List Char)
  | [], acc => [acc.reverse]
  | c :: cs, acc =>
    if c = sep then acc.reverse :: splitOnCharAux sep cs []
    else splitOnCharAux sep cs (c :: acc)

/-- `s.split(sep)` for a one-character separator (the
`accessTokenPath.split(".")` of performTokenRefresh). -/
def splitOnChar (s : String) (sep : Char) : List String :=
  (splitOnCharAux sep s.toList []).map String.mk

/-- ApiServiceConfig from src/types/index.ts.  The field named
refreshTokenPrefix in the source is rendered refreshTokenPfx here. -/
structure ApiServiceConfig where
  name : String
  baseURL : String
  timeout : Option Nat := none
  headers : List (String × String) := []
  refreshEndpoint : Option String := none
  refreshMethod : Option String := none
  refreshRequestBody : Option Json := none
  refreshTokenHeaderName : Option String := none
  refreshTokenPfx : Option String := none
  accessTokenPath : Option String := none

/-- ApiClientOptions from src/types/index.ts.  Services keep the object
insertion order of the source configuration; the optional callbacks are
modelled by presence flags (their invocations are recorded as effects). -/
structure ApiClientOptions where
  services : List (String × ApiServiceConfig) := []
  defaultTimeout : Option Nat := none
  defaultHeaders : List (String × String) := []
  hasOnUnauthorized : Bool := false
  hasOnTokenRefresh : Bool := false
  hasOnTokenRefreshError : Bool := false

/-- The axios.request call performTokenRefresh issues: url, method, body
(data, absent for non-post methods) and headers. -/
structure RefreshRequest where
  url : String
  method : String
  data : Option Json
  headers : List (String × String)

/-- Observable side effects of one performTokenRefresh invocation:
network requests issued, values written through the token manager
setters, clearTokens calls, and callback invocations. -/
structure Effects where
  requests : List RefreshRequest := []
  setAccess : List Json := []
  setRefresh : List Json := []
  clearedTokens : Nat := 0
  onUnauthorizedCalls : Nat := 0
  onTokenRefreshErrorCalls : Nat := 0
  onTokenRefreshCalls : List Json := []

def noEffects : Effects := {}

/-- Environment of one refresh attempt: what the token manager getter
returns, the network oracle for the refresh request, and — when the
application configured a custom onRefreshRequest handler — the awaited
outcome of that handler (error means the handler threw). -/
structure RefreshEnv where
  refreshTok : Option String
  net : RefreshRequest → Except String Json
  custom : Option (Except String (Option String)) := none

/-- Effects of the catch block of performTokenRefresh: clearTokens(),
onTokenRefreshError?.(err), onUnauthorized?.(). -/
def catchEffects (opts : ApiClientOptions) (reqs : List RefreshRequest) : Effects :=
  { requests := reqs
    clearedTokens := 1
    onTokenRefreshErrorCalls := if opts.hasOnTokenRefreshError then 1 else 0
    onUnauthorizedCalls := if opts.hasOnUnauthorized then 1 else 0 }

/-- The automatic-discovery predicate of performTokenRefresh:
`service.refreshEndpoint || service.name.toLowerCase().includes("auth")`. -/
def isAuthCandidate (s : ApiServiceConfig) : Bool :=
  strOptTruthy s.refreshEndpoint || strIncludes (strToLower s.name) "auth"

/-- `Object.values(this.options.services).find(...)` in insertion order. -/
def findAuthService (services : List ApiServiceConfig) : Option ApiServiceConfig :=
  services.find? isAuthCandidate

/-- The axios.request argument performTokenRefresh builds for the
discovered auth service and the current refresh token. -/
def authRequest (s : ApiServiceConfig) (tok : String) : RefreshRequest :=
  let endp := orDefaultStr s.refreshEndpoint "/auth/refresh"
  let method := orDefaultStr s.refreshMethod "post"
  let hdrName := orDefaultStr s.refreshTokenHeaderName "Authorization"
  let pfx := orDefaultStr s.refreshTokenPfx "Bearer"
  let body := s.refreshRequestBody.getD (Json.obj [])
  { url := s.baseURL ++ endp
    method := method
    data := if method = "post" then some body else none
    headers := [(hdrName, pfx ++ " " ++ tok)] }

/-- performTokenRefresh from src/config/index.ts, lines 159-227.
Returns the recorded effects and the resolved value of the returned
promise (some token value, or none for the `return null` paths).  The
try block covers the custom handler, the network call and the response
parsing; every exception there lands in the catch block, so the
function always resolves. -/
def performTokenRefresh (opts : ApiClientOptions) (env : RefreshEnv) :
    Effects × Option Json :=
  if strOptTruthy env.refreshTok = false then
    -- `if (!refreshToken) { this.options.onUnauthorized?.(); return null; }`
    ({ onUnauthorizedCalls := if opts.hasOnUnauthorized then 1 else 0 }, none)
  else
    let tok := env.refreshTok.getD ""
    match env.custom with
    | some (.ok r) =>
      -- custom handler resolved; `if (newToken) { setAccessToken; onTokenRefresh?; return }`
      match r with
      | some t =>
        if t != "" then
          ({ setAccess := [Json.str t]
             onTokenRefreshCalls := if opts.hasOnTokenRefresh then [Json.str t] else [] },
           some (Json.str t))
        else (noEffects, none)
      | none => (noEffects, none)
    | some (.error _) => (catchEffects opts [], none)
    | none =>
      match findAuthService (opts.services.map Prod.snd) with
      | none => (noEffects, none)
      | some s =>
        let req := authRequest s tok
        match env.net req with
        | .error _ => (catchEffects opts [req], none)
        | .ok respBody =>
          let path := splitOnChar (orDefaultStr s.accessTokenPath "access_token") (Char.ofNat 46)
          match extractAtPath respBody path with
          | some v =>
            if v.truthy then
              ({ requests := [req]
                 setAccess := [v]
                 onTokenRefreshCalls := if opts.hasOnTokenRefresh then [v] else [] },
               some v)
            else ({ requests := [req] }, none)
          | none => ({ requests := [req] }, none)

/-- JavaScript template-literal stringification, for
`Bearer ${newToken}` (tokens are normally strings; the other cases
follow the toString conversions of the language). -/
def Json.jsText : Json → String
  | .null => "null"
  | .bool b => if b then "true" else "false"
  | .num n => toString n
  | .str s => s
  | .arr xs => String.intercalate "," (xs.attach.map (fun x => Json.jsText x.1))
  | .obj _ => "[object Object]"
decreasing_by
  have h := List.sizeOf_lt_of_mem x.2
  simp only [Json.arr.sizeOf_spec]
  omega

/-- The error.response field of an axios error: HTTP status and body. -/
structure ErrResponse where
  status : Nat
  body : Json

/-- The relevant slice of an axios request config: an identity for the
physical request, the per-request _retry marker, and the Authorization
header.  The id stands for everything else on the config (url, method,
payload), so equal ids mean the same physical request. -/
structure ReqConfig where
  id : Nat
  retry : Bool
  authHeader : Option String

/-- An axios rejection value: the originating request config and the
optional response (absent for pure network errors). -/
structure AxiosErr where
  config : ReqConfig
  response : Option ErrResponse

/-- Outcome of the response-error interceptor: either re-dispatch the
(mutated) original request through the instance, or reject with an
error value. -/
inductive InterceptResult where
  | redispatch (req : ReqConfig)
  | reject (e : AxiosErr)

/-- `error?.response?.status === 401`. -/
def is401 (e : AxiosErr) : Bool :=
  match e.response with
  | some r => r.status == 401
  | none => false

/-- The response-error interceptor installed by createAxiosInstance
(src/config/index.ts, lines 105-124), parameterized by the settled
outcome of `await this.refreshToken()` (effects of the refresh this
caller started, or no effects with the shared value when it joined an
in-flight one — see the coordinator model below).  The returned Bool
records whether the 401 branch ran, i.e. whether this error triggered
the refresh path at all. -/
def interceptErrorWith (refreshOutcome : Effects × Option Json) (e : AxiosErr) :
    Bool × Effects × InterceptResult :=
  if is401 e && !e.config.retry then
    -- originalRequest._retry = true (mutation of the shared config object)
    let cfg : ReqConfig := { e.config with retry := true }
    let (eff, tok) := refreshOutcome
    match tok with
    | some t =>
      -- originalRequest.headers.Authorization = `Bearer ${newToken}`;
      -- return axiosInstance(originalRequest)
      (true, eff, .redispatch { cfg with authHeader := some ("Bearer " ++ t.jsText) })
    | none =>
      -- falls through to `return Promise.reject(error)`
      (true, eff, .reject { e with config := cfg })
  else
    (false, noEffects, .reject e)

/-- The interceptor in the cycle-creating case, where
`await this.refreshToken()` evaluates performTokenRefresh itself. -/
def interceptError (opts : ApiClientOptions) (env : RefreshEnv) (e : AxiosErr) :
    Bool × Effects × InterceptResult :=
  interceptErrorWith (performTokenRefresh opts env) e

/-!
Single-flight coordinator (ApiConfig.refreshToken, src/config/index.ts
lines 141-157).  In the event-loop execution model there is no
suspension point between `if (this.refreshPromise) return ...` and
`this.refreshPromise = this.performTokenRefresh()`: the async callee
returns its promise immediately and the assignment belongs to the
synchronous prefix of refreshToken, so check-then-set is one atomic
step.  The finally block of the creating caller clears the reference;
its continuation is the first one subscribed to the promise, so the
reference is null again before any later-arriving failure handler reads
it.  Promises are modelled by identifiers: a promise identifier has a
single settlement, so callers holding the same identifier observe the
same settled value. -/

/-- Coordinator state: the shared this.refreshPromise reference (a
promise identifier when a refresh is in flight), a fresh-identifier
counter, and a count of performTokenRefresh invocations made so far. -/
structure CoordState where
  refreshPromise : Option Nat
  nextId : Nat
  started : Nat

/-- One call to ApiConfig.refreshToken, up to its await: returns the
promise identifier this caller will await.  A joiner reuses the stored
promise; otherwise performTokenRefresh is invoked (started increases)
and its promise is stored. -/
def refreshTokenCall (st : CoordState) : CoordState × Nat :=
  match st.refreshPromise with
  | some p => (st, p)
  | none =>
    ({ refreshPromise := some st.nextId
       nextId := st.nextId + 1
       started := st.started + 1 }, st.nextId)

/-- The finally block of the creating caller: the shared reference is
cleared once the awaited promise settles (success or failure alike). -/
def settleRefresh (st : CoordState) : CoordState :=
  { st with refreshPromise := none }

/-- n consecutive refreshToken calls with no settlement in between
(n concurrent 401 handlers in the same in-flight window); returns the
final state and the promise identifier each caller awaits. -/
def runCalls (st : CoordState) : Nat → CoordState × List Nat
  | 0 => (st, [])
  | n + 1 =>
    let (st1, i) := refreshTokenCall st
    let (st2, is) := runCalls st1 n
    (st2, i :: is)

/-!
Service lookup: ApiConfig.createAxiosInstance (src/config/index.ts,
lines 75-90) and ApiClient (src/ApiClient.ts).
-/

/-- The axios instance configuration built by createAxiosInstance.  In
the headers list a later entry overrides an earlier one with the same
key, matching object spread order. -/
structure AxiosInstanceModel where
  baseURL : String
  timeout : Nat
  headers : List (String × String)
  withCredentials : Bool

/-- ApiConfig.createAxiosInstance: looks the service up in the options
map and throws when it is absent (the thrown message wraps the name in
single quotes in the source; the quotes are omitted here). -/
def createAxiosInstance (opts : ApiClientOptions) (serviceName : String) :
    Except String AxiosInstanceModel :=
  match List.lookup serviceName opts.services with
  | none => .error ("Service " ++ serviceName ++ " not found in configuration")
  | some cfg =>
    .ok { baseURL := cfg.baseURL
          timeout := orDefaultNat cfg.timeout (orDefaultNat opts.defaultTimeout 60000)
          headers := [("Content-Type", "application/json")] ++ opts.defaultHeaders ++ cfg.headers
          withCredentials :=
            match List.lookup "withCredentials" opts.defaultHeaders with
            | some s => s != ""
            | none => false }

/-- ApiClient: its constructor registers one ApiService per configured
service name (initializeServices); the Map is modelled by its key list. -/
structure ApiClientModel where
  services : List String

/-- `new ApiClient(options)`. -/
def mkApiClient (opts : ApiClientOptions) : ApiClientModel :=
  { services := opts.services.map Prod.fst }

/-- ApiClient.getService: returns the registered service or throws an
error listing the missing name and the available services. -/
def getService (c : ApiClientModel) (serviceName : String) : Except String String :=
  if c.services.contains serviceName then .ok serviceName
  else
    .error ("Service " ++ serviceName ++ " not found. Available services: "
      ++ String.intercalate ", " c.services)

/-!
Concrete fixtures used by the witnesses and counterexamples below.
-/

/-- A service with a refresh endpoint, as in the configuration examples
of the repository. -/
def svcAuth : ApiServiceConfig :=
  { name := "auth", baseURL := "https://api.example.com"
    refreshEndpoint := some "/auth/refresh" }

/-- A service with no refresh endpoint and no auth-like name. -/
def svcData : ApiServiceConfig :=
  { name := "data", baseURL := "https://data.example.com" }

/-- Options with a refresh-capable service and all callbacks configured. -/
def optsAuth : ApiClientOptions :=
  { services := [("auth", svcAuth)]
    hasOnUnauthorized := true
    hasOnTokenRefresh := true
    hasOnTokenRefreshError := true }

/-- Options with no refresh-capable service, onUnauthorized configured. -/
def optsNoAuth : ApiClientOptions :=
  { services := [("data", svcData)], hasOnUnauthorized := true }

/-- A refresh environment whose network call succeeds with the body
shape the code expects by default ({ access_token: ... }). -/
def envNetOk : RefreshEnv :=
  { refreshTok := some "rt"
    net := fun _ => .ok (Json.obj [("access_token", Json.str "newTok")]) }

/-- A refresh environment whose network call rejects (network error or
non-2xx refresh response). -/
def envNetFail : RefreshEnv :=
  { refreshTok := some "rt", net := fun _ => .error "HTTP 500" }

/-- A refresh environment whose network call succeeds with a body that
carries no token at the configured path (malformed body). -/
def envMalformed : RefreshEnv :=
  { refreshTok := some "rt", net := fun _ => .ok (Json.obj []) }

/-- A refresh environment whose network call succeeds with the body
shape the specification describes: data.accessToken / data.refreshToken. -/
def envSpecShape : RefreshEnv :=
  { refreshTok := some "rt"
    net := fun _ => .ok (Json.obj [("data", Json.obj
      [("accessToken", Json.str "t"), ("refreshToken", Json.str "r")])]) }

/-- A 401 error on a not-yet-retried request whose body carries neither
responseBody.code nor responseBody.error.code. -/
def err401 : AxiosErr :=
  { config := { id := 7, retry := false, authHeader := none }
    response := some { status := 401, body := Json.obj [("message", Json.str "unauthorized")] } }

/-- A non-authentication failure (HTTP 500) on a not-yet-retried request. -/
def err500 : AxiosErr :=
  { config := { id := 1, retry := false, authHeader := none }
    response := some { status := 500, body := Json.null } }

/-- Freshness invariant of the coordinator: any stored promise
identifier was allocated earlier than the next fresh one. -/
def coordInv (st : CoordState) : Prop :=
  ∀ q, st.refreshPromise = some q → q < st.nextId

/-!
Helper lemmas.
-/

/-- While a refresh promise is stored, refreshToken calls join it:
no state change, everyone gets the stored identifier. -/
theorem runCalls_joined (n : Nat) (st : CoordState) (p : Nat)
    (h : st.refreshPromise = some p) :
    runCalls st n = (st, List.replicate n p) := by
  induction n with
  | zero => simp [runCalls]
  | succ n ih =>
    simp only [runCalls, refreshTokenCall, h, ih, List.replicate]

/-- Any single performTokenRefresh invocation issues at most one
network request. -/
theorem perform_requests_le_one (opts : ApiClientOptions) (env : RefreshEnv) :
    (performTokenRefresh opts env).1.requests.length ≤ 1 := by
  by_cases h1 : strOptTruthy env.refreshTok = false
  · simp [performTokenRefresh, h1]
  · rcases hc : env.custom with _ | r
    · rcases hf : findAuthService (opts.services.map Prod.snd) with _ | s
      · simp [performTokenRefresh, h1, hc, hf, noEffects]
      · rcases hn : env.net (authRequest s (env.refreshTok.getD "")) with m | b
        · simp [performTokenRefresh, h1, hc, hf, hn, catchEffects]
        · rcases he : extractAtPath b
            (splitOnChar (orDefaultStr s.accessTokenPath "access_token") (Char.ofNat 46)) with _ | v
          · simp [performTokenRefresh, h1, hc, hf, hn, he]
          · by_cases ht : v.truthy = true
            · simp [performTokenRefresh, h1, hc, hf, hn, he, ht]
            · simp [performTokenRefresh, h1, hc, hf, hn, he, ht]
    · rcases r with m | t
      · simp [performTokenRefresh, h1, hc, catchEffects]
      · rcases t with _ | t
        · simp [performTokenRefresh, h1, hc, noEffects]
        · by_cases ht : (t != "") = true
          · simp [performTokenRefresh, h1, hc, ht]
          · simp [performTokenRefresh, h1, hc, ht, noEffects]

/-- Computation of a refreshToken call right after a settlement. -/
theorem refreshTokenCall_settle (st : CoordState) :
    refreshTokenCall (settleRefresh st) =
      ({ refreshPromise := some st.nextId, nextId := st.nextId + 1,
         started := st.started + 1 }, st.nextId) := rfl

/-!
Claims.
-/

/-- C1: at most one refresh operation is outstanding per configuration
instance: starting from an idle coordinator (no stored refresh
promise), any number n ≥ 2 of refreshToken calls arriving before the
settlement start performTokenRefresh exactly once, every caller awaits
the same promise identifier, hence every caller observes the same
settlement value; and a performTokenRefresh invocation issues at most
one network request. -/
theorem c1_single_flight (st : CoordState) (n : Nat)
    (hidle : st.refreshPromise = none) (hn : 2 ≤ n) :
    (runCalls st n).1.started = st.started + 1
    ∧ (∀ i ∈ (runCalls st n).2, i = st.nextId)
    ∧ (∀ (settlement : Nat → Option Json),
        ∀ i ∈ (runCalls st n).2, settlement i = settlement st.nextId)
    ∧ (∀ opts env, (performTokenRefresh opts env).1.requests.length ≤ 1) := by
  obtain ⟨m, rfl⟩ : ∃ m, n = m + 1 := ⟨n - 1, by omega⟩
  have hstep : refreshTokenCall st =
      ({ refreshPromise := some st.nextId, nextId := st.nextId + 1,
         started := st.started + 1 }, st.nextId) := by
    simp [refreshTokenCall, hidle]
  have hrun : runCalls st (m + 1) =
      ({ refreshPromise := some st.nextId, nextId := st.nextId + 1,
         started := st.started + 1 }, st.nextId :: List.replicate m st.nextId) := by
    simp only [runCalls, hstep]
    rw [runCalls_joined m _ st.nextId rfl]
  refine ⟨by rw [hrun], ?_, ?_, fun opts env => perform_requests_le_one opts env⟩
  · intro i hi
    rw [hrun] at hi
    simp only [List.mem_cons, List.eq_of_mem_replicate] at hi
    rcases hi with h | h
    · exact h
    · exact List.eq_of_mem_replicate h
  · intro settlement i hi
    rw [hrun] at hi
    simp only [List.mem_cons] at hi
    rcases hi with h | h
    · rw [h]
    · rw [List.eq_of_mem_replicate h]

/-- Witness for C1 at a concrete idle state and n = 3. -/
theorem c1_single_flight_witness :
    (runCalls ⟨none, 0, 0⟩ 3).1.started = 0 + 1
    ∧ (∀ i ∈ (runCalls ⟨none, 0, 0⟩ 3).2, i = 0) :=
  ⟨(c1_single_flight ⟨none, 0, 0⟩ 3 rfl (by norm_num)).1,
   (c1_single_flight ⟨none, 0, 0⟩ 3 rfl (by norm_num)).2.1⟩

/-- C8: once a refresh settles, the shared reference is cleared before
the next authentication failure is handled, so the next refreshToken
call starts a brand-new performTokenRefresh with a fresh promise,
never replaying the settled one; and the coordinator steps preserve
the freshness invariant. -/
theorem c8_idle_reset (st : CoordState) (p : Nat)
    (_hin : st.refreshPromise = some p) (hfresh : p < st.nextId) :
    (settleRefresh st).refreshPromise = none
    ∧ (refreshTokenCall (settleRefresh st)).1.started = st.started + 1
    ∧ (refreshTokenCall (settleRefresh st)).2 ≠ p
    ∧ (refreshTokenCall (settleRefresh st)).1.refreshPromise
        = some (refreshTokenCall (settleRefresh st)).2
    ∧ (∀ s, coordInv s → coordInv (refreshTokenCall s).1 ∧ coordInv (settleRefresh s)) := by
  refine ⟨rfl, ?_, ?_, ?_, ?_⟩
  · rw [refreshTokenCall_settle]
  · rw [refreshTokenCall_settle]
    simpa using Nat.ne_of_gt hfresh
  · rw [refreshTokenCall_settle]
  · intro s hs
    constructor
    · cases hps : s.refreshPromise with
      | some r =>
        have hjoin : refreshTokenCall s = (s, r) := by
          unfold refreshTokenCall; rw [hps]
        rw [hjoin]
        exact hs
      | none =>
        have hnew : refreshTokenCall s =
            ({ refreshPromise := some s.nextId, nextId := s.nextId + 1,
               started := s.started + 1 }, s.nextId) := by
          unfold refreshTokenCall; rw [hps]
        rw [hnew]
        intro q hq
        have hq2 : s.nextId = q := by simpa using hq
        show q < s.nextId + 1
        omega
    · intro q hq
      simp [settleRefresh] at hq

/-- Witness for C8 at a concrete in-flight state. -/
theorem c8_idle_reset_witness :
    (settleRefresh ⟨some 2, 3, 1⟩).refreshPromise = none
    ∧ (refreshTokenCall (settleRefresh ⟨some 2, 3, 1⟩)).2 ≠ 2 :=
  ⟨(c8_idle_reset ⟨some 2, 3, 1⟩ 2 rfl (by norm_num)).1,
   (c8_idle_reset ⟨some 2, 3, 1⟩ 2 rfl (by norm_num)).2.2.1⟩

/-- C3: the refresh-and-retry cycle runs at most once per physical
request: a first 401 on a not-yet-retried request marks it retried and,
on refresh success, re-dispatches it with the marker set; any later
failure on a request whose marker is set is rejected unchanged, with no
refresh attempted and no effects. -/
theorem c3_at_most_one_retry (ro : Effects × Option Json) (e1 : AxiosErr) (t : Json)
    (h401 : is401 e1 = true) (hfirst : e1.config.retry = false) (htok : ro.2 = some t) :
    (∃ req, (interceptErrorWith ro e1).2.2 = .redispatch req ∧ req.retry = true)
    ∧ (∀ (ro2 : Effects × Option Json) (e2 : AxiosErr), e2.config.retry = true →
        interceptErrorWith ro2 e2 = (false, noEffects, .reject e2)) := by
  constructor
  · refine ⟨{ { e1.config with retry := true } with
        authHeader := some ("Bearer " ++ t.jsText) }, ?_, rfl⟩
    obtain ⟨eff, tok⟩ := ro
    simp only at htok
    simp [interceptErrorWith, h401, hfirst, htok]
  · intro ro2 e2 hretried
    simp [interceptErrorWith, hretried]

/-- Witness for C3: a concrete first 401 is re-dispatched with the
marker set, and a concrete second 401 on the marked request is rejected
with no refresh. -/
theorem c3_at_most_one_retry_witness :
    (∃ req, (interceptErrorWith (noEffects, some (Json.str "newTok")) err401).2.2
        = .redispatch req ∧ req.retry = true)
    ∧ interceptErrorWith (noEffects, none)
        { config := { id := 7, retry := true, authHeader := some "Bearer newTok" }
          response := some { status := 401, body := Json.obj [] } }
      = (false, noEffects, .reject
          { config := { id := 7, retry := true, authHeader := some "Bearer newTok" }
            response := some { status := 401, body := Json.obj [] } }) :=
  ⟨(c3_at_most_one_retry (noEffects, some (Json.str "newTok")) err401
      (Json.str "newTok") rfl rfl rfl).1,
   (c3_at_most_one_retry (noEffects, some (Json.str "newTok")) err401
      (Json.str "newTok") rfl rfl rfl).2 (noEffects, none) _ rfl⟩

/-- C10: performTokenRefresh never rejects: in every environment (any
network outcome, any configuration) it resolves to none or to a truthy
token value; consequently whenever the response interceptor rejects, it
rejects with the caller's own original error (same request identity,
same response), never with a value originating from the refresh call. -/
theorem c10_refresh_never_rejects (opts : ApiClientOptions) (env : RefreshEnv)
    (ro : Effects × Option Json) (e : AxiosErr) :
    ((performTokenRefresh opts env).2 = none
      ∨ ∃ v, (performTokenRefresh opts env).2 = some v ∧ v.truthy = true)
    ∧ (∀ r, (interceptErrorWith ro e).2.2 = .reject r →
        r.config.id = e.config.id ∧ r.response = e.response) := by
  constructor
  · by_cases h1 : strOptTruthy env.refreshTok = false
    · simp [performTokenRefresh, h1]
    · rcases hc : env.custom with _ | r
      · rcases hf : findAuthService (opts.services.map Prod.snd) with _ | s
        · simp [performTokenRefresh, h1, hc, hf, noEffects]
        · rcases hn : env.net (authRequest s (env.refreshTok.getD "")) with m | b
          · simp [performTokenRefresh, h1, hc, hf, hn, catchEffects]
          · rcases he : extractAtPath b
              (splitOnChar (orDefaultStr s.accessTokenPath "access_token") (Char.ofNat 46)) with _ | v
            · simp [performTokenRefresh, h1, hc, hf, hn, he]
            · by_cases ht : v.truthy = true
              · right
                exact ⟨v, by simp [performTokenRefresh, h1, hc, hf, hn, he, ht], ht⟩
              · simp [performTokenRefresh, h1, hc, hf, hn, he, ht]
      · rcases r with m | t
        · simp [performTokenRefresh, h1, hc, catchEffects]
        · rcases t with _ | t
          · simp [performTokenRefresh, h1, hc, noEffects]
          · by_cases ht : (t != "") = true
            · right
              refine ⟨Json.str t, by simp [performTokenRefresh, h1, hc, ht], ?_⟩
              simpa [Json.truthy] using ht
            · simp [performTokenRefresh, h1, hc, ht, noEffects]
  · intro r hr
    by_cases htrig : (is401 e && !e.config.retry) = true
    · obtain ⟨eff, tok⟩ := ro
      rcases tok with _ | t
      · simp only [interceptErrorWith, htrig, if_true] at hr
        have : { e with config := { e.config with retry := true } } = r :=
          InterceptResult.reject.inj hr
        rw [← this]
        exact ⟨rfl, rfl⟩
      · simp only [interceptErrorWith, htrig, if_true] at hr
        exact absurd hr (by simp)
    · simp only [interceptErrorWith, htrig, if_false] at hr
      have : e = r := InterceptResult.reject.inj hr
      rw [← this]
      exact ⟨rfl, rfl⟩

/-- Witness for C10 at a concrete environment (failed network refresh)
and a concrete rejected request. -/
theorem c10_refresh_never_rejects_witness :
    ((performTokenRefresh optsAuth envNetFail).2 = none
      ∨ ∃ v, (performTokenRefresh optsAuth envNetFail).2 = some v ∧ v.truthy = true)
    ∧ ({ config := { id := 7, retry := true, authHeader := none }
         response := err401.response } : AxiosErr).config.id = err401.config.id
      ∧ ({ config := { id := 7, retry := true, authHeader := none }
           response := err401.response } : AxiosErr).response = err401.response :=
  ⟨(c10_refresh_never_rejects optsAuth envNetFail
      (performTokenRefresh optsAuth envNetFail) err401).1,
   (c10_refresh_never_rejects optsAuth envNetFail
      (performTokenRefresh optsAuth envNetFail) err401).2
     { config := { id := 7, retry := true, authHeader := none }
       response := err401.response } rfl⟩

/-- An association-list lookup misses exactly when the key is not among
the keys. -/
theorem lookup_none_iff_not_key (l : List (String × ApiServiceConfig)) (k : String) :
    List.lookup k l = none ↔ (l.map Prod.fst).contains k = false := by
  induction l with
  | nil => simp [List.lookup]
  | cons a l ih =>
    by_cases h : k = a.1
    · have hbeq : (k == a.1) = true := by simp [h]
      simp only [List.lookup, hbeq, List.map_cons, List.contains_cons, Bool.true_or]
      simp
    · have hbeq : (k == a.1) = false := by simp [h]
      simp only [List.lookup, hbeq, List.map_cons, List.contains_cons, Bool.false_or]
      exact ih

/-- C9: looking up a service identifier that is not a key of the
configured services map fails synchronously with an error naming the
missing service, both in ApiConfig.createAxiosInstance and in
ApiClient.getService; looking up a registered identifier succeeds in
both. -/
theorem c9_service_lookup (opts : ApiClientOptions) (serviceName : String) :
    ((opts.services.map Prod.fst).contains serviceName = false →
      (∃ m, createAxiosInstance opts serviceName = .error m
        ∧ ∃ pre suf, m = pre ++ serviceName ++ suf)
      ∧ (∃ m, getService (mkApiClient opts) serviceName = .error m
        ∧ ∃ pre suf, m = pre ++ serviceName ++ suf))
    ∧ ((opts.services.map Prod.fst).contains serviceName = true →
      (∃ inst, createAxiosInstance opts serviceName = .ok inst)
      ∧ (∃ svc, getService (mkApiClient opts) serviceName = .ok svc)) := by
  constructor
  · intro habsent
    have hlook : List.lookup serviceName opts.services = none :=
      (lookup_none_iff_not_key opts.services serviceName).mpr habsent
    have hc : ((mkApiClient opts).services.contains serviceName) = false := habsent
    constructor
    · exact ⟨_, by simp [createAxiosInstance, hlook],
        "Service ", " not found in configuration", rfl⟩
    · refine ⟨"Service " ++ serviceName ++ " not found. Available services: "
          ++ String.intercalate ", " (mkApiClient opts).services, ?_, "Service ",
        " not found. Available services: "
          ++ String.intercalate ", " (mkApiClient opts).services, ?_⟩
      · unfold getService
        rw [if_neg (by rw [hc]; simp)]
      · simp [String.append_assoc]
  · intro hpresent
    have hc : ((mkApiClient opts).services.contains serviceName) = true := hpresent
    constructor
    · rcases hlook : List.lookup serviceName opts.services with _ | cfg
      · rw [lookup_none_iff_not_key] at hlook
        rw [hpresent] at hlook
        exact absurd hlook (by simp)
      · exact ⟨_, by unfold createAxiosInstance; rw [hlook]⟩
    · exact ⟨serviceName, by unfold getService; rw [if_pos hc]⟩

/-- Witness for C9: with one registered service named api, the missing
name nope fails in both lookups and the registered name succeeds in
both. -/
theorem c9_service_lookup_witness :
    ((∃ m, createAxiosInstance optsNoAuth "nope" = .error m
        ∧ ∃ pre suf, m = pre ++ "nope" ++ suf)
      ∧ (∃ m, getService (mkApiClient optsNoAuth) "nope" = .error m
        ∧ ∃ pre suf, m = pre ++ "nope" ++ suf))
    ∧ ((∃ inst, createAxiosInstance optsNoAuth "data" = .ok inst)
      ∧ (∃ svc, getService (mkApiClient optsNoAuth) "data" = .ok svc)) :=
  ⟨(c9_service_lookup optsNoAuth "nope").1 rfl,
   (c9_service_lookup optsNoAuth "data").2 rfl⟩

/-- C2 counterexample: a 401 response whose body carries neither
responseBody.code nor responseBody.error.code (it only has a message
field) nevertheless triggers the refresh path: the interceptor runs the
401 branch, one refresh network request is issued, and the request is
re-dispatched rather than returned unchanged. -/
theorem c2_counterexample :
    (interceptError optsAuth envNetOk err401).1 = true
    ∧ (interceptError optsAuth envNetOk err401).2.1.requests.length = 1
    ∧ (∃ req, (interceptError optsAuth envNetOk err401).2.2 = .redispatch req
        ∧ req.id = 7 ∧ req.retry = true) :=
  ⟨rfl, rfl, _, rfl, rfl, rfl⟩

/-- C2 (amended): the trigger of the response interceptor consults only
the HTTP status and the per-request retry marker, never the response
body: the 401 branch runs exactly when the status is 401 and the
request was not yet retried, and otherwise the failure is rejected
unchanged with no refresh effects. -/
theorem c2_trigger_ignores_body (ro : Effects × Option Json) (e : AxiosErr) :
    (interceptErrorWith ro e).1 = (is401 e && !e.config.retry)
    ∧ ((is401 e && !e.config.retry) = false →
        interceptErrorWith ro e = (false, noEffects, .reject e)) := by
  constructor
  · by_cases h : (is401 e && !e.config.retry) = true
    · obtain ⟨eff, tok⟩ := ro
      rcases tok with _ | t <;> simp [interceptErrorWith, h]
    · simp only [Bool.not_eq_true] at h
      simp [interceptErrorWith, h]
  · intro h
    simp [interceptErrorWith, h]

/-- Witness for C2 (amended) at a concrete non-401 failure. -/
theorem c2_trigger_ignores_body_witness :
    (interceptErrorWith (noEffects, none) err500).1
      = (is401 err500 && !err500.config.retry)
    ∧ interceptErrorWith (noEffects, none) err500
      = (false, noEffects, .reject err500) :=
  ⟨(c2_trigger_ignores_body (noEffects, none) err500).1,
   (c2_trigger_ignores_body (noEffects, none) err500).2 rfl⟩

/-- C4 counterexample: with a refresh token present but no custom
handler and no service carrying a refresh endpoint or an auth-like
name, performTokenRefresh resolves null with no network call — but it
neither clears the stored credentials nor invokes the configured
onUnauthorized callback, contrary to the claim. -/
theorem c4_counterexample :
    performTokenRefresh optsNoAuth envNetOk = (noEffects, none)
    ∧ (performTokenRefresh optsNoAuth envNetOk).1.requests = []
    ∧ (performTokenRefresh optsNoAuth envNetOk).1.clearedTokens = 0
    ∧ (performTokenRefresh optsNoAuth envNetOk).1.onUnauthorizedCalls = 0
    ∧ optsNoAuth.hasOnUnauthorized = true :=
  ⟨rfl, rfl, rfl, rfl, rfl⟩

/-- C4 (amended): when the refresh-token getter yields nothing,
performTokenRefresh resolves null immediately with no network call,
invoking onUnauthorized (when configured) but not clearing stored
credentials; when a refresh token exists but no custom handler and no
service with a refresh endpoint or auth-like name is configured, it
resolves null with no network call, with neither onUnauthorized nor
clearTokens invoked; in both cases the interceptor rejects the request
with its own original failure. -/
theorem c4_refresh_unavailable (opts : ApiClientOptions) (env : RefreshEnv) :
    (strOptTruthy env.refreshTok = false →
      performTokenRefresh opts env =
        ({ onUnauthorizedCalls := if opts.hasOnUnauthorized then 1 else 0 }, none))
    ∧ (strOptTruthy env.refreshTok = true → env.custom = none →
        findAuthService (opts.services.map Prod.snd) = none →
        performTokenRefresh opts env = (noEffects, none))
    ∧ (∀ (ro : Effects × Option Json) (e : AxiosErr),
        ro.2 = none → is401 e = true → e.config.retry = false →
        (interceptErrorWith ro e).2.2 =
          .reject { e with config := { e.config with retry := true } }) := by
  refine ⟨?_, ?_, ?_⟩
  · intro h
    simp [performTokenRefresh, h]
  · intro h1 h2 h3
    simp [performTokenRefresh, h1, h2, h3, noEffects]
  · intro ro e hnone h401 hfirst
    obtain ⟨eff, tok⟩ := ro
    simp only at hnone
    simp [interceptErrorWith, h401, hfirst, hnone]

/-- Witness for C4 (amended): the falsy-getter case at a concrete
environment, the no-refresh-service case at another, and the
original-failure rejection at a concrete 401. -/
theorem c4_refresh_unavailable_witness :
    performTokenRefresh optsNoAuth { refreshTok := none, net := fun _ => .error "x" }
      = ({ onUnauthorizedCalls := 1 }, none)
    ∧ performTokenRefresh optsNoAuth envNetOk = (noEffects, none)
    ∧ (interceptErrorWith (noEffects, none) err401).2.2 =
        .reject { err401 with config := { err401.config with retry := true } } :=
  ⟨(c4_refresh_unavailable optsNoAuth
      { refreshTok := none, net := fun _ => .error "x" }).1 rfl,
   (c4_refresh_unavailable optsNoAuth envNetOk).2.1 rfl rfl rfl,
   (c4_refresh_unavailable optsNoAuth envNetOk).2.2 (noEffects, none) err401 rfl rfl rfl⟩

/-- No branch of performTokenRefresh ever writes a refresh token back
through the token manager. -/
theorem perform_setRefresh_nil (opts : ApiClientOptions) (env : RefreshEnv) :
    (performTokenRefresh opts env).1.setRefresh = [] := by
  by_cases h1 : strOptTruthy env.refreshTok = false
  · simp [performTokenRefresh, h1]
  · rcases hc : env.custom with _ | r
    · rcases hf : findAuthService (opts.services.map Prod.snd) with _ | s
      · simp [performTokenRefresh, h1, hc, hf, noEffects]
      · rcases hn : env.net (authRequest s (env.refreshTok.getD "")) with m | b
        · simp [performTokenRefresh, h1, hc, hf, hn, catchEffects]
        · rcases he : extractAtPath b
            (splitOnChar (orDefaultStr s.accessTokenPath "access_token") (Char.ofNat 46)) with _ | v
          · simp [performTokenRefresh, h1, hc, hf, hn, he]
          · by_cases ht : v.truthy = true
            · simp [performTokenRefresh, h1, hc, hf, hn, he, ht]
            · simp [performTokenRefresh, h1, hc, hf, hn, he, ht]
    · rcases r with m | t
      · simp [performTokenRefresh, h1, hc, catchEffects]
      · rcases t with _ | t
        · simp [performTokenRefresh, h1, hc, noEffects]
        · by_cases ht : (t != "") = true
          · simp [performTokenRefresh, h1, hc, ht]
          · simp [performTokenRefresh, h1, hc, ht, noEffects]

/-- C5 counterexample: a refresh network call that succeeds at the HTTP
level but returns a malformed body (no token at the configured path) is
not treated like a refresh-network failure: performTokenRefresh resolves
null without clearing the stored credentials and without invoking the
configured onUnauthorized callback. -/
theorem c5_counterexample :
    (performTokenRefresh optsAuth envMalformed).2 = none
    ∧ (performTokenRefresh optsAuth envMalformed).1.clearedTokens = 0
    ∧ (performTokenRefresh optsAuth envMalformed).1.onUnauthorizedCalls = 0
    ∧ (performTokenRefresh optsAuth envMalformed).1.requests.length = 1
    ∧ optsAuth.hasOnUnauthorized = true :=
  ⟨rfl, rfl, rfl, rfl, rfl⟩

/-- C5 (amended): when the refresh network call rejects (network error
or non-2xx response), performTokenRefresh runs its catch block —
clearTokens once, onTokenRefreshError and onUnauthorized when
configured — and resolves null, so each waiting 401 handler rejects
with its own original failure, never with the refresh error; a 2xx
response with a malformed body also resolves null (original failure
propagated) but skips the catch block. -/
theorem c5_refresh_network_failure (opts : ApiClientOptions) (env : RefreshEnv)
    (s : ApiServiceConfig) (msg : String)
    (hc : env.custom = none)
    (hf : findAuthService (opts.services.map Prod.snd) = some s)
    (ht : strOptTruthy env.refreshTok = true)
    (hn : env.net (authRequest s (env.refreshTok.getD "")) = .error msg) :
    performTokenRefresh opts env
      = (catchEffects opts [authRequest s (env.refreshTok.getD "")], none)
    ∧ (∀ e : AxiosErr, is401 e = true → e.config.retry = false →
        (interceptErrorWith (performTokenRefresh opts env) e).2.2 =
          .reject { e with config := { e.config with retry := true } }) := by
  have hres : performTokenRefresh opts env
      = (catchEffects opts [authRequest s (env.refreshTok.getD "")], none) := by
    simp [performTokenRefresh, ht, hc, hf, hn]
  refine ⟨hres, ?_⟩
  intro e h401 hfirst
  rw [hres]
  simp [interceptErrorWith, h401, hfirst]

/-- Witness for C5 (amended) at a concrete failing refresh call. -/
theorem c5_refresh_network_failure_witness :
    performTokenRefresh optsAuth envNetFail
      = (catchEffects optsAuth [authRequest svcAuth (envNetFail.refreshTok.getD "")], none)
    ∧ (interceptErrorWith (performTokenRefresh optsAuth envNetFail) err401).2.2 =
        .reject { err401 with config := { err401.config with retry := true } } :=
  ⟨(c5_refresh_network_failure optsAuth envNetFail svcAuth "HTTP 500" rfl rfl rfl rfl).1,
   (c5_refresh_network_failure optsAuth envNetFail svcAuth "HTTP 500" rfl rfl rfl rfl).2
     err401 rfl rfl⟩

/-- C6 counterexample: in the default configuration the body of the
issued refresh request is the empty object — it has no refreshToken
field at all; the refresh token travels in the Authorization header
instead. -/
theorem c6_counterexample :
    (performTokenRefresh optsAuth envNetOk).1.requests.map RefreshRequest.data
      = [some (Json.obj [])]
    ∧ (performTokenRefresh optsAuth envNetOk).1.requests.map RefreshRequest.headers
      = [[("Authorization", "Bearer rt")]]
    ∧ Json.getField (Json.obj []) "refreshToken" = none :=
  ⟨rfl, rfl, rfl⟩

/-- C6 (amended): the refresh request carries the refresh token in the
configured header (default Authorization, default prefix Bearer); its
body is the configured refreshRequestBody (default the empty object)
when the refresh method is post and is omitted otherwise; no
refreshToken field is added to the body. -/
theorem c6_refresh_wire (opts : ApiClientOptions) (env : RefreshEnv)
    (s : ApiServiceConfig)
    (hc : env.custom = none)
    (hf : findAuthService (opts.services.map Prod.snd) = some s)
    (ht : strOptTruthy env.refreshTok = true) :
    (performTokenRefresh opts env).1.requests = [authRequest s (env.refreshTok.getD "")]
    ∧ (authRequest s (env.refreshTok.getD "")).headers
        = [(orDefaultStr s.refreshTokenHeaderName "Authorization",
            orDefaultStr s.refreshTokenPfx "Bearer" ++ " " ++ env.refreshTok.getD "")]
    ∧ (authRequest s (env.refreshTok.getD "")).data
        = (if orDefaultStr s.refreshMethod "post" = "post"
           then some (s.refreshRequestBody.getD (Json.obj [])) else none) := by
  refine ⟨?_, rfl, rfl⟩
  rcases hn : env.net (authRequest s (env.refreshTok.getD "")) with m | b
  · simp [performTokenRefresh, ht, hc, hf, hn, catchEffects]
  · rcases he : extractAtPath b
      (splitOnChar (orDefaultStr s.accessTokenPath "access_token") (Char.ofNat 46)) with _ | v
    · simp [performTokenRefresh, ht, hc, hf, hn, he]
    · by_cases htr : v.truthy = true
      · simp [performTokenRefresh, ht, hc, hf, hn, he, htr]
      · simp [performTokenRefresh, ht, hc, hf, hn, he, htr]

/-- Witness for C6 (amended) at the concrete default configuration. -/
theorem c6_refresh_wire_witness :
    (performTokenRefresh optsAuth envNetOk).1.requests
      = [authRequest svcAuth (envNetOk.refreshTok.getD "")]
    ∧ (authRequest svcAuth (envNetOk.refreshTok.getD "")).headers
        = [(orDefaultStr svcAuth.refreshTokenHeaderName "Authorization",
            orDefaultStr svcAuth.refreshTokenPfx "Bearer" ++ " " ++ envNetOk.refreshTok.getD "")] :=
  ⟨(c6_refresh_wire optsAuth envNetOk svcAuth rfl rfl rfl).1,
   (c6_refresh_wire optsAuth envNetOk svcAuth rfl rfl rfl).2.1⟩

/-- C7 counterexample: a successful refresh response shaped as the
specification describes ({ data: { accessToken, refreshToken } }) yields
no token under the default extraction path access_token:
performTokenRefresh resolves null and writes nothing through either
setter. -/
theorem c7_counterexample :
    (performTokenRefresh optsAuth envSpecShape).2 = none
    ∧ (performTokenRefresh optsAuth envSpecShape).1.setAccess = []
    ∧ (performTokenRefresh optsAuth envSpecShape).1.setRefresh = []
    ∧ (performTokenRefresh optsAuth envSpecShape).1.requests.length = 1 :=
  ⟨rfl, rfl, rfl, rfl⟩

/-- C7 (amended): on a successful refresh response the new access token
is extracted at the configurable dot-path accessTokenPath (default
access_token, not data.accessToken) and, when truthy, written back via
setAccessToken and returned; setRefreshToken is never invoked by
performTokenRefresh in any environment. -/
theorem c7_token_extraction (opts : ApiClientOptions) (env : RefreshEnv)
    (s : ApiServiceConfig) (b v : Json)
    (hc : env.custom = none)
    (hf : findAuthService (opts.services.map Prod.snd) = some s)
    (ht : strOptTruthy env.refreshTok = true)
    (hn : env.net (authRequest s (env.refreshTok.getD "")) = .ok b)
    (he : extractAtPath b
      (splitOnChar (orDefaultStr s.accessTokenPath "access_token") (Char.ofNat 46)) = some v)
    (htr : v.truthy = true) :
    (performTokenRefresh opts env).2 = some v
    ∧ (performTokenRefresh opts env).1.setAccess = [v]
    ∧ (∀ (opts2 : ApiClientOptions) (env2 : RefreshEnv),
        (performTokenRefresh opts2 env2).1.setRefresh = []) := by
  refine ⟨?_, ?_, fun opts2 env2 => perform_setRefresh_nil opts2 env2⟩
  · simp [performTokenRefresh, ht, hc, hf, hn, he, htr]
  · simp [performTokenRefresh, ht, hc, hf, hn, he, htr]

/-- Witness for C7 (amended) at a concrete successful refresh. -/
theorem c7_token_extraction_witness :
    (performTokenRefresh optsAuth envNetOk).2 = some (Json.str "newTok")
    ∧ (performTokenRefresh optsAuth envNetOk).1.setAccess = [Json.str "newTok"]
    ∧ (performTokenRefresh optsAuth envMalformed).1.setRefresh = [] :=
  ⟨(c7_token_extraction optsAuth envNetOk svcAuth
      (Json.obj [("access_token", Json.str "newTok")]) (Json.str "newTok")
      rfl rfl rfl rfl rfl rfl).1,
   (c7_token_extraction optsAuth envNetOk svcAuth
      (Json.obj [("access_token", Json.str "newTok")]) (Json.str "newTok")
      rfl rfl rfl rfl rfl rfl).2.1,
   (c7_token_extraction optsAuth envNetOk svcAuth
      (Json.obj [("access_token", Json.str "newTok")]) (Json.str "newTok")
      rfl rfl rfl rfl rfl rfl).2.2 optsAuth envMalformed⟩

end LpApiClient
